import Mathlib

/-!
Shallow embedding of the request handlers in saleor/product/views.py:
product detail rendering, add-to-cart form submission and category listing.

Pure data the handlers read (the resolved product or category rows, the
request method, the AJAX flag, the authentication flag, the query string,
the session cart and the verdict of form validation) is made explicit in
the `World` and `Request` records.  Helpers that live outside the given
source file (`handle_cart_form`, `set_cart_cookie`, URL reversing, the
model methods `get_slug`, `get_absolute_url`, `get_full_path`) are
modelled from the specification, as marked on each definition.  Pricing,
image, pagination and filtering helpers only feed template context entries
none of the verified properties mention, so they are not modelled.
-/

/-- A product row: identifier, current canonical slug, and the optional
`available_on` date (days since an epoch, totally ordered). -/
structure Product where
  id : Nat
  slug : String
  available_on : Option Nat
  deriving DecidableEq, Repr

/-- Modelled from the spec: `Product.get_slug` (product model, not under
src/) returns the product's current canonical slug. -/
def Product.get_slug (p : Product) : String := p.slug

/-- Modelled from the spec: URL reversing for the product-detail route,
`reverse('product:details', kwargs=...)`. -/
def reverse_product_details (slug : String) (product_id : Nat) : String :=
  "/products/" ++ slug ++ "/" ++ toString product_id ++ "/"

/-- Modelled from the spec: URL reversing for the cart page,
`reverse('cart:index')`. -/
def reverse_cart_index : String := "/cart/"

/-- Modelled from the spec: URL reversing for the category listing route,
`redirect('product:category', path=..., category_id=...)`. -/
def reverse_category (path : String) (category_id : Nat) : String :=
  "/category/" ++ path ++ "/" ++ toString category_id ++ "/"

/-- Modelled from the spec: `Product.get_absolute_url` (product model, not
under src/) builds the canonical detail URL from the current slug and id. -/
def Product.get_absolute_url (p : Product) : String :=
  reverse_product_details p.slug p.id

/-- A category row: identifier and hierarchical full path. -/
structure Category where
  id : Nat
  full_path : String
  deriving DecidableEq, Repr

/-- Modelled from the spec: `Category.get_full_path` (category model, not
under src/) returns the category's current full path. -/
def Category.get_full_path (c : Category) : String := c.full_path

/-- A cart, identified by the session token a cart cookie would carry. -/
structure Cart where
  token : String
  deriving DecidableEq, Repr

/-- The bound add-to-cart form: the verdict of the external validation
(saleor.product.forms, not under src/) and its error payload. -/
structure CartForm where
  valid : Bool
  errors : String
  deriving DecidableEq, Repr

/-- The incoming HTTP request, restricted to the request-scoped values the
three handlers read. -/
structure Request where
  method : String
  ajax : Bool
  authenticated : Bool
  query : List (String × String)
  session_cart : Option Cart
  new_cart_token : String
  form_valid : Bool
  form_errors : String
  deriving DecidableEq, Repr

/-- Ambient state the handlers consult besides the request: the product and
category rows visible to the requesting user, and today's date. -/
structure World where
  products : List Product
  categories : List Category
  today : Nat
  deriving DecidableEq, Repr

/-- Modelled from the spec: `products_with_details(user=...)` (product
utils, not under src/), the queryset of products scoped to what the current
user may see; the scoping itself is external, the embedding exposes the
resulting rows. -/
def products_with_details (w : World) : List Product := w.products

/-- Modelled from the spec: `products_for_cart(user=...)` (product utils,
not under src/), the queryset of products available for cart operations. -/
def products_for_cart (w : World) : List Product := w.products

/-- Django `get_object_or_404` over an embedded product queryset: the row
with the given id, if any; a miss becomes an HTTP 404 response. -/
def get_object_or_404 (rows : List Product) (i : Nat) : Option Product :=
  rows.find? (fun p => p.id == i)

/-- Django `get_object_or_404(Category, id=...)` over the category rows. -/
def get_category_or_404 (rows : List Category) (i : Nat) : Option Category :=
  rows.find? (fun c => c.id == i)

/-- The context dictionary passed to a rendered template, restricted to the
entries the verified properties mention; entries produced by external
pricing, image, pagination and filtering helpers are not modelled. -/
inductive TemplateCtx where
  | productDetails (is_visible : Bool) (form : CartForm) (product : Product)
  | categoryIndex (category : Category) (is_descending : Bool)
  deriving DecidableEq, Repr

/-- The body of an HTTP response a handler can build. -/
inductive ResponseBody where
  | permanentRedirect (url : String)
  | redirect (url : String)
  | jsonResponse (body : List (String × String)) (status : Nat)
  | templateResponse (template : String) (ctx : TemplateCtx)
  | http404
  deriving DecidableEq, Repr

/-- HTTP status of a response body: `HttpResponsePermanentRedirect` and
`redirect(permanent=True)` are 301, `redirect` is 302, `JsonResponse`
carries its explicit status, a rendered template is 200, a missing row is
404. -/
def ResponseBody.status : ResponseBody → Nat
  | .permanentRedirect _ => 301
  | .redirect _ => 302
  | .jsonResponse _ s => s
  | .templateResponse _ _ => 200
  | .http404 => 404

/-- An HTTP response: its body and the cookies attached to it. -/
structure Response where
  body : ResponseBody
  cookies : List (String × String) := []
  deriving DecidableEq, Repr

/-- HTTP status of a response. -/
def Response.status (r : Response) : Nat := r.body.status

/-- Modelled from the spec: `set_cart_cookie` (saleor.cart.utils, not under
src/) attaches the cart-identifying cookie to the outgoing response. -/
def set_cart_cookie (cart : Cart) (response : Response) : Response :=
  { response with cookies := ("cart", cart.token) :: response.cookies }

/-- Whether a response carries the cart-identifying cookie. -/
def Response.hasCartCookie (r : Response) : Bool :=
  r.cookies.any (fun kv => kv.fst == "cart")

/-- Modelled from the spec: `handle_cart_form` (saleor.product.utils, not
under src/) binds the add-to-cart form to the posted data and to the
requester's cart, creating a cart only when `create_cart` is true and none
exists yet.  Returns the bound form, the cart (if any), and whether a cart
row was created. -/
def handle_cart_form (request : Request) (_product : Product)
    (create_cart : Bool) : CartForm × Option Cart × Bool :=
  let form : CartForm :=
    { valid := request.form_valid, errors := request.form_errors }
  match request.session_cart with
  | some c => (form, some c, false)
  | none =>
    if create_cart then
      (form, some { token := request.new_cart_token }, true)
    else
      (form, none, false)

/-- Side effects on cart state performed during one request: whether a cart
row was created and whether `form.save()` persisted a cart line. -/
structure Effects where
  created_cart : Bool
  saved_form : Bool
  deriving DecidableEq, Repr

/-- No cart mutation. -/
def Effects.none : Effects := { created_cart := false, saved_form := false }

/-- views.py `product_details`: resolve the product (404 on a miss), issue
a permanent redirect to the canonical URL when the slug is stale, compute
`is_visible` from `available_on` and today, build the add-to-cart form with
`create_cart=False` when none was passed in, and render the detail
template. -/
def product_details (w : World) (request : Request) (slug : String)
    (product_id : Nat) (form0 : Option CartForm) : Response × Effects :=
  let products := products_with_details w
  match get_object_or_404 products product_id with
  | none => ({ body := .http404 }, Effects.none)
  | some product =>
    if product.get_slug ≠ slug then
      ({ body := .permanentRedirect product.get_absolute_url }, Effects.none)
    else
      let today := w.today
      let is_visible : Bool :=
        match product.available_on with
        | none => true
        | some d => decide (d ≤ today)
      let fc : CartForm × Bool :=
        match form0 with
        | none =>
          let hcf := handle_cart_form request product false
          (hcf.fst, hcf.snd.snd)
        | some f => (f, false)
      ({ body := .templateResponse "product/details.html"
           (.productDetails is_visible fc.fst product) },
       { created_cart := fc.snd, saved_form := false })

/-- views.py `product_add_to_cart`: answer a non-POST request with a
redirect back to the detail page; otherwise resolve the product (404 on a
miss), bind the cart form with `create_cart=True`, on a valid form call
`form.save()` and answer JSON `next` (status 200, AJAX) or a redirect to
the cart page, on an invalid form answer JSON `error` (status 400, AJAX) or
re-render the detail page with the bound form, and finally attach the cart
cookie when the requester is unauthenticated. -/
def product_add_to_cart (w : World) (request : Request) (slug : String)
    (product_id : Nat) : Response × Effects :=
  if request.method ≠ "POST" then
    ({ body := .redirect (reverse_product_details slug product_id) },
     Effects.none)
  else
    match get_object_or_404 (products_for_cart w) product_id with
    | none => ({ body := .http404 }, Effects.none)
    | some product =>
      let hcf := handle_cart_form request product true
      let form := hcf.fst
      let cart := hcf.snd.fst
      let created := hcf.snd.snd
      let branch : Response × Bool × Bool :=
        if form.valid then
          if request.ajax then
            ({ body := .jsonResponse [("next", reverse_cart_index)] 200 },
             true, false)
          else
            ({ body := .redirect reverse_cart_index }, true, false)
        else
          if request.ajax then
            ({ body := .jsonResponse [("error", form.errors)] 400 },
             false, false)
          else
            let inner := product_details w request slug product_id (some form)
            (inner.fst, false, inner.snd.created_cart)
      let response :=
        if !request.authenticated then
          match cart with
          | some c => set_cart_cookie c branch.fst
          | none => branch.fst
        else branch.fst
      (response,
       { created_cart := created || branch.snd.snd,
         saved_form := branch.snd.fst })

/-- Python `s.startswith('-')`: the string is nonempty and its first
character is the dash. -/
def startswith_dash (s : String) : Bool :=
  match s.data with
  | [] => false
  | c :: _ => c == '-'

/-- views.py `category_index`: resolve the category (404 on a miss), issue
a permanent redirect built from the actual full path and the id when the
URL path is stale, compute `is_descending` from the `sort_by` query
parameter (Python truthiness: `None` and the empty string are falsy), and
render the listing template. -/
def category_index (w : World) (request : Request) (path : String)
    (category_id : Nat) : Response × Effects :=
  match get_category_or_404 w.categories category_id with
  | none => ({ body := .http404 }, Effects.none)
  | some category =>
    let actual_path := category.get_full_path
    if actual_path ≠ path then
      ({ body := .permanentRedirect (reverse_category actual_path category_id) },
       Effects.none)
    else
      let arg_sort_by := request.query.lookup "sort_by"
      let is_descending :=
        match arg_sort_by with
        | none => false
        | some s => if s.data.isEmpty then false else startswith_dash s
      ({ body := .templateResponse "category/index.html"
           (.categoryIndex category is_descending) },
       Effects.none)

/-! Concrete fixtures used by witnesses and counterexamples. -/

/-- A sample product whose canonical slug is `shirt`. -/
def sampleProduct : Product :=
  { id := 1, slug := "shirt", available_on := none }

/-- A sample category whose full path is `apparel/shirts`. -/
def sampleCategory : Category :=
  { id := 7, full_path := "apparel/shirts" }

/-- A sample world holding the sample product and category. -/
def sampleWorld : World :=
  { products := [sampleProduct], categories := [sampleCategory],
    today := 20000 }

/-- A base request: anonymous POST, no AJAX, no session cart, valid form. -/
def baseRequest : Request :=
  { method := "POST", ajax := false, authenticated := false,
    query := [], session_cart := none, new_cart_token := "tok",
    form_valid := true, form_errors := "" }

/-! Verified properties. -/

/-- Claim C2: an add-to-cart request whose HTTP method is not POST gets a
redirect to the product detail page, and the cart state is untouched: no
cart is created and no line item is added or modified. -/
theorem C2_non_post_redirects_without_mutation (w : World) (request : Request)
    (slug : String) (product_id : Nat) (h : request.method ≠ "POST") :
    product_add_to_cart w request slug product_id =
      ({ body := .redirect (reverse_product_details slug product_id),
         cookies := [] }, Effects.none) := by
  simp [product_add_to_cart, h]

/-- Claim C2 witness: a GET request at the sample world. -/
theorem C2_non_post_redirects_without_mutation_witness :
    product_add_to_cart sampleWorld { baseRequest with method := "GET" }
        "shirt" 1 =
      ({ body := .redirect (reverse_product_details "shirt" 1),
         cookies := [] }, Effects.none) :=
  C2_non_post_redirects_without_mutation sampleWorld
    { baseRequest with method := "GET" } "shirt" 1 (by decide)

/-- Claim C3: a product-detail request that resolves a product whose current
canonical slug differs from the URL slug gets a permanent redirect (HTTP
301) to the product's canonical URL. -/
theorem C3_stale_slug_permanent_redirect (w : World) (request : Request)
    (slug : String) (product_id : Nat) (p : Product)
    (hfind : get_object_or_404 (products_with_details w) product_id = some p)
    (hslug : p.get_slug ≠ slug) :
    (product_details w request slug product_id none).fst =
        { body := .permanentRedirect p.get_absolute_url, cookies := [] } ∧
      (product_details w request slug product_id none).fst.status = 301 := by
  constructor <;>
    simp [product_details, hfind, hslug, Response.status, ResponseBody.status]

/-- Claim C3 witness: requesting the sample product under a stale slug. -/
theorem C3_stale_slug_permanent_redirect_witness :
    (product_details sampleWorld baseRequest "tshirt" 1 none).fst =
        { body := .permanentRedirect sampleProduct.get_absolute_url,
          cookies := [] } ∧
      (product_details sampleWorld baseRequest "tshirt" 1 none).fst.status
        = 301 :=
  C3_stale_slug_permanent_redirect sampleWorld baseRequest "tshirt" 1
    sampleProduct (by decide) (by decide)

/-- Claim C9: rendering the product detail page never mutates the cart: the
form helper is invoked with `create_cart=False`, so no cart is created and
nothing is saved, whatever form is passed in. -/
theorem C9_details_no_cart_mutation (w : World) (request : Request)
    (slug : String) (product_id : Nat) (form0 : Option CartForm) :
    (product_details w request slug product_id form0).snd = Effects.none := by
  cases hfind : get_object_or_404 (products_with_details w) product_id with
  | none => simp [product_details, hfind]
  | some p =>
    by_cases hslug : p.get_slug = slug
    · cases form0 with
      | none =>
        cases hc : request.session_cart <;>
          simp [product_details, hfind, hslug, handle_cart_form, hc,
            Effects.none]
      | some f => simp [product_details, hfind, hslug, Effects.none]
    · simp [product_details, hfind, hslug]

/-- Claim C4: a POST add-to-cart AJAX request whose bound form is invalid
gets a JSON response whose body is the `error` key holding the form errors,
with HTTP status 400, and `form.save()` is not called. -/
theorem C4_ajax_invalid_form_error_400 (w : World) (request : Request)
    (slug : String) (product_id : Nat) (p : Product)
    (hfind : get_object_or_404 (products_for_cart w) product_id = some p)
    (hm : request.method = "POST") (ha : request.ajax = true)
    (hv : request.form_valid = false) :
    (product_add_to_cart w request slug product_id).fst.body =
        .jsonResponse [("error", request.form_errors)] 400 ∧
      (product_add_to_cart w request slug product_id).fst.status = 400 ∧
      (product_add_to_cart w request slug product_id).snd.saved_form
        = false := by
  refine ⟨?_, ?_, ?_⟩ <;>
    · cases hc : request.session_cart <;>
        cases hauth : request.authenticated <;>
          simp [product_add_to_cart, hfind, hm, ha, hv, hc, hauth,
            handle_cart_form, set_cart_cookie, Response.status,
            ResponseBody.status]

/-- An anonymous invalid AJAX submission. -/
def invalidAjaxRequest : Request :=
  { baseRequest with
    ajax := true
    form_valid := false
    form_errors := "quantity required" }

/-- Claim C4 witness: an anonymous invalid AJAX submission at the sample
world. -/
theorem C4_ajax_invalid_form_error_400_witness :
    (product_add_to_cart sampleWorld invalidAjaxRequest "shirt" 1).fst.body =
        .jsonResponse [("error", "quantity required")] 400 ∧
      (product_add_to_cart sampleWorld invalidAjaxRequest "shirt" 1).fst.status
        = 400 ∧
      (product_add_to_cart sampleWorld invalidAjaxRequest
          "shirt" 1).snd.saved_form = false :=
  C4_ajax_invalid_form_error_400 sampleWorld invalidAjaxRequest "shirt" 1
    sampleProduct (by decide) rfl rfl rfl

/-- Claim C5: a POST add-to-cart AJAX request whose bound form is valid has
its cart line persisted (`form.save()` is called) and gets a JSON response
whose body is the `next` key holding the cart page URL, with HTTP status
200. -/
theorem C5_ajax_valid_form_next_200 (w : World) (request : Request)
    (slug : String) (product_id : Nat) (p : Product)
    (hfind : get_object_or_404 (products_for_cart w) product_id = some p)
    (hm : request.method = "POST") (ha : request.ajax = true)
    (hv : request.form_valid = true) :
    (product_add_to_cart w request slug product_id).fst.body =
        .jsonResponse [("next", reverse_cart_index)] 200 ∧
      (product_add_to_cart w request slug product_id).fst.status = 200 ∧
      (product_add_to_cart w request slug product_id).snd.saved_form
        = true := by
  refine ⟨?_, ?_, ?_⟩ <;>
    · cases hc : request.session_cart <;>
        cases hauth : request.authenticated <;>
          simp [product_add_to_cart, hfind, hm, ha, hv, hc, hauth,
            handle_cart_form, set_cart_cookie, Response.status,
            ResponseBody.status]

/-- Claim C5 witness: an anonymous valid AJAX submission at the sample
world. -/
theorem C5_ajax_valid_form_next_200_witness :
    (product_add_to_cart sampleWorld { baseRequest with ajax := true }
          "shirt" 1).fst.body =
        .jsonResponse [("next", reverse_cart_index)] 200 ∧
      (product_add_to_cart sampleWorld { baseRequest with ajax := true }
          "shirt" 1).fst.status = 200 ∧
      (product_add_to_cart sampleWorld { baseRequest with ajax := true }
          "shirt" 1).snd.saved_form = true :=
  C5_ajax_valid_form_next_200 sampleWorld { baseRequest with ajax := true }
    "shirt" 1 sampleProduct (by decide) rfl rfl rfl

/-- Claim C6: a category listing request that resolves a category whose
current full path differs from the URL path gets a permanent redirect to
the URL built from the category's actual full path and the same category
id. -/
theorem C6_stale_path_permanent_redirect (w : World) (request : Request)
    (path : String) (category_id : Nat) (c : Category)
    (hfind : get_category_or_404 w.categories category_id = some c)
    (hpath : c.get_full_path ≠ path) :
    category_index w request path category_id =
      ({ body := .permanentRedirect
           (reverse_category c.get_full_path category_id), cookies := [] },
       Effects.none) := by
  simp [category_index, hfind, hpath]

/-- Claim C6 witness: requesting the sample category under a stale path. -/
theorem C6_stale_path_permanent_redirect_witness :
    category_index sampleWorld baseRequest "clothing/shirts" 7 =
      ({ body := .permanentRedirect
           (reverse_category sampleCategory.get_full_path 7),
         cookies := [] }, Effects.none) :=
  C6_stale_path_permanent_redirect sampleWorld baseRequest "clothing/shirts"
    7 sampleCategory (by decide) (by decide)

/-- The `is_visible` context entry of a rendered product-detail template,
when the response is one. -/
def Response.ctxIsVisible (r : Response) : Option Bool :=
  match r.body with
  | .templateResponse _ (.productDetails v _ _) => some v
  | _ => none

/-- The `is_descending` context entry of a rendered category-listing
template, when the response is one. -/
def Response.ctxIsDescending (r : Response) : Option Bool :=
  match r.body with
  | .templateResponse _ (.categoryIndex _ v) => some v
  | _ => none

/-- Claim C7: on a rendered product-detail page, the `is_visible` value
passed to the template is true exactly when the product's `available_on`
date is absent or is at most today. -/
theorem C7_is_visible_iff_available (w : World) (request : Request)
    (slug : String) (product_id : Nat) (p : Product) (form0 : Option CartForm)
    (hfind : get_object_or_404 (products_with_details w) product_id = some p)
    (hslug : p.get_slug = slug) :
    ∃ v, Response.ctxIsVisible
          (product_details w request slug product_id form0).fst = some v ∧
      (v = true ↔ p.available_on = none ∨
        ∃ d, p.available_on = some d ∧ d ≤ w.today) := by
  refine ⟨match p.available_on with
          | none => true
          | some d => decide (d ≤ w.today), ?_, ?_⟩
  · simp [product_details, hfind, hslug, Response.ctxIsVisible]
  · cases hao : p.available_on with
    | none => simp
    | some d => simp

/-- Claim C7 witness: the sample product, which has no availability date,
is rendered visible. -/
theorem C7_is_visible_iff_available_witness :
    ∃ v, Response.ctxIsVisible
          (product_details sampleWorld baseRequest "shirt" 1 none).fst
        = some v ∧
      (v = true ↔ sampleProduct.available_on = none ∨
        ∃ d, sampleProduct.available_on = some d ∧ d ≤ sampleWorld.today) :=
  C7_is_visible_iff_available sampleWorld baseRequest "shirt" 1
    sampleProduct none (by decide) rfl

/-- Claim C10: on a rendered category listing, the `is_descending` value
passed to the template is true exactly when the `sort_by` query parameter
is present, non-empty and begins with the character '-'; it is false when
the parameter is absent. -/
theorem C10_is_descending_iff_dash (w : World) (request : Request)
    (path : String) (category_id : Nat) (c : Category)
    (hfind : get_category_or_404 w.categories category_id = some c)
    (hpath : c.get_full_path = path) :
    ∃ v, Response.ctxIsDescending
          (category_index w request path category_id).fst = some v ∧
      (v = true ↔ ∃ s, request.query.lookup "sort_by" = some s ∧
        s ≠ "" ∧ s.data.head? = some '-') := by
  refine ⟨match request.query.lookup "sort_by" with
          | none => false
          | some s => if s.data.isEmpty then false else startswith_dash s,
    ?_, ?_⟩
  · simp [category_index, hfind, hpath, Response.ctxIsDescending]
  · cases harg : request.query.lookup "sort_by" with
    | none => simp
    | some s =>
      cases s with
      | mk l =>
        cases l with
        | nil =>
          simp [String.ext_iff]
          exact fun x hx hnx _ => absurd hx hnx
        | cons ch tl =>
          simp [startswith_dash, String.ext_iff]
          constructor
          · intro h
            exact ⟨⟨ch :: tl⟩, rfl, by simp, by simp [h]⟩
          · rintro ⟨s, hs, hne, hh⟩
            rw [← hs] at hh
            simpa using hh

/-! Helper lemmas shared by the cookie and slug-independence proofs. -/

/-- The bound form returned by the cart-form helper, whatever the cart
situation. -/
theorem handle_cart_form_fst (request : Request) (p : Product) (b : Bool) :
    (handle_cart_form request p b).fst =
      { valid := request.form_valid, errors := request.form_errors } := by
  cases hc : request.session_cart <;> cases b <;>
    simp [handle_cart_form, hc]

/-- Attaching the cart cookie leaves the response body unchanged. -/
theorem set_cart_cookie_body (c : Cart) (r : Response) :
    (set_cart_cookie c r).body = r.body := rfl

/-- A response that went through `set_cart_cookie` carries the cart
cookie. -/
theorem set_cart_cookie_hasCartCookie (c : Cart) (r : Response) :
    (set_cart_cookie c r).hasCartCookie = true := by
  simp [set_cart_cookie, Response.hasCartCookie]

/-- The product-detail handler never attaches cookies itself. -/
theorem product_details_cookies (w : World) (request : Request)
    (slug : String) (product_id : Nat) (form0 : Option CartForm) :
    (product_details w request slug product_id form0).fst.cookies = [] := by
  cases hfind : get_object_or_404 (products_with_details w) product_id with
  | none => simp [product_details, hfind]
  | some p =>
    by_cases hslug : p.get_slug = slug <;>
      simp [product_details, hfind, hslug]

/-- An anonymous GET request (the base request with the method changed). -/
def anonGetRequest : Request := { baseRequest with method := "GET" }

/-- A signed-in POST submission with a valid form. -/
def authPostRequest : Request := { baseRequest with authenticated := true }

/-- Claim C1 counterexample: an add-to-cart request by an unauthenticated
user whose method is GET gets a response that carries no cart-identifying
cookie, because the early non-POST redirect is returned before the
cookie-setting step; this refutes the claim for non-POST requests. -/
theorem C1_counterexample_anonymous_get_no_cookie :
    anonGetRequest.authenticated = false ∧
      (product_add_to_cart sampleWorld anonGetRequest
          "shirt" 1).fst.hasCartCookie = false :=
  ⟨rfl, rfl⟩

/-- Claim C1 (amended): for every POST add-to-cart request that resolves a
product, an unauthenticated requester's response carries the
cart-identifying cookie, and an authenticated requester's response never
carries one, whatever the method and form outcome. -/
theorem C1_amended_cart_cookie (w : World) (request : Request)
    (slug : String) (product_id : Nat) :
    (request.method = "POST" → request.authenticated = false →
      (get_object_or_404 (products_for_cart w) product_id).isSome = true →
      (product_add_to_cart w request slug product_id).fst.hasCartCookie
        = true) ∧
    (request.authenticated = true →
      (product_add_to_cart w request slug product_id).fst.hasCartCookie
        = false) := by
  constructor
  · intro hm hauth hsome
    cases hfind : get_object_or_404 (products_for_cart w) product_id with
    | none => rw [hfind] at hsome; simp at hsome
    | some p =>
      cases hc : request.session_cart <;>
        simp [product_add_to_cart, hm, hauth, hfind, hc, handle_cart_form,
          set_cart_cookie_hasCartCookie]
  · intro hauth
    by_cases hm : request.method = "POST"
    · cases hfind : get_object_or_404 (products_for_cart w) product_id with
      | none =>
        simp [product_add_to_cart, hm, hfind, Response.hasCartCookie]
      | some p =>
        cases hv : request.form_valid <;> cases ha : request.ajax <;>
          simp [product_add_to_cart, hm, hauth, hfind, hv, ha,
            handle_cart_form_fst, Response.hasCartCookie,
            product_details_cookies]
    · simp [product_add_to_cart, hm, Response.hasCartCookie]

/-- Claim C1 (amended) witness: the anonymous valid POST gets the cookie,
the signed-in one does not. -/
theorem C1_amended_cart_cookie_witness :
    (product_add_to_cart sampleWorld baseRequest
        "shirt" 1).fst.hasCartCookie = true ∧
      (product_add_to_cart sampleWorld authPostRequest
          "shirt" 1).fst.hasCartCookie = false :=
  ⟨(C1_amended_cart_cookie sampleWorld baseRequest "shirt" 1).1 rfl rfl
      (by decide),
    (C1_amended_cart_cookie sampleWorld authPostRequest "shirt" 1).2 rfl⟩

/-- An anonymous POST submission with an invalid form, not via AJAX. -/
def invalidNonAjaxRequest : Request :=
  { baseRequest with
    form_valid := false
    form_errors := "quantity required" }

/-- Claim C8 counterexample: a POST add-to-cart with a valid product id, a
stale slug, an invalid form and no AJAX: the handler's response is the
canonicalization permanent redirect issued by the delegated product_details
re-render, refuting that no canonicalization redirect is ever issued by
this handler. -/
theorem C8_counterexample_stale_slug_redirect :
    (product_add_to_cart sampleWorld invalidNonAjaxRequest
        "tshirt" 1).fst.body =
      .permanentRedirect sampleProduct.get_absolute_url := by
  rfl

/-- Claim C8 (amended): product_add_to_cart resolves the product by id only
and binds and processes the cart form regardless of whether the given slug
matches the product's current slug (the form is saved exactly when it is
valid, for any slug); no canonicalization redirect is issued except through
the non-AJAX invalid-form path, where the delegated detail re-render
redirects on a stale slug. -/
theorem C8_amended_slug_ignored_for_form (w : World) (request : Request)
    (slug : String) (product_id : Nat) (p : Product)
    (hfind : get_object_or_404 (products_for_cart w) product_id = some p)
    (hm : request.method = "POST") :
    ((product_add_to_cart w request slug product_id).snd.saved_form
        = request.form_valid) ∧
      (request.form_valid = true ∨ request.ajax = true →
        ∀ url, (product_add_to_cart w request slug product_id).fst.body ≠
          .permanentRedirect url) := by
  constructor
  · cases hv : request.form_valid <;> cases ha : request.ajax <;>
      simp [product_add_to_cart, hfind, hm, hv, ha, handle_cart_form_fst]
  · intro h url
    cases hauth : request.authenticated <;>
      cases hc : request.session_cart <;>
        cases hv : request.form_valid <;> cases ha : request.ajax <;>
          simp_all [product_add_to_cart, hfind, hm, hc, hauth,
            handle_cart_form, set_cart_cookie]

/-- Claim C8 (amended) witness: a valid non-AJAX POST under a stale slug
still saves the form and is not answered with a permanent redirect. -/
theorem C8_amended_slug_ignored_for_form_witness :
    (product_add_to_cart sampleWorld baseRequest
          "tshirt" 1).snd.saved_form = true ∧
      (product_add_to_cart sampleWorld baseRequest "tshirt" 1).fst.body ≠
        .permanentRedirect "/products/shirt/1/" :=
  ⟨((C8_amended_slug_ignored_for_form sampleWorld baseRequest "tshirt" 1
        sampleProduct (by decide) rfl).1).trans rfl,
    (C8_amended_slug_ignored_for_form sampleWorld baseRequest "tshirt" 1
        sampleProduct (by decide) rfl).2 (Or.inl rfl) "/products/shirt/1/"⟩

/-- A request sorting by descending name. -/
def descendingSortRequest : Request :=
  { baseRequest with query := [("sort_by", "-name")] }

/-- Claim C10 witness: sorting by `-name` at the sample category renders a
descending listing. -/
theorem C10_is_descending_iff_dash_witness :
    ∃ v, Response.ctxIsDescending
          (category_index sampleWorld descendingSortRequest
            "apparel/shirts" 7).fst = some v ∧
      (v = true ↔ ∃ s, descendingSortRequest.query.lookup "sort_by" = some s
        ∧ s ≠ "" ∧ s.data.head? = some '-') :=
  C10_is_descending_iff_dash sampleWorld descendingSortRequest
    "apparel/shirts" 7 sampleCategory (by decide) rfl
